import Mathlib

/-!
Verification of the `debug_error` library (`src/error.rs`): a `DebugError`
value type holding a message and a captured source location, a `Display`
implementation rendering `"<message> at <file>:<line>:<column>"`, and two
construction macros — `debug_error` (silent) and `debug_error_with_log`
(also emits one `log::error!` record) — modelled as a shallow embedding.
-/

namespace DebugErrorLib

/-- Model of `std::panic::Location`: the source file, line and column
captured at the construction call site. -/
structure Location where
  file : String
  line : Nat
  column : Nat
  deriving DecidableEq, Repr

/-- Display of `std::panic::Location`, which renders as
`file:line:column` (used by `write!(f, "{} at {}", .., self.location)`). -/
def Location.render (l : Location) : String :=
  l.file ++ ":" ++ toString l.line ++ ":" ++ toString l.column

/-- Model of `pub struct DebugError { pub message: String,
pub location: &'static std::panic::Location<'static> }`. -/
structure DebugError where
  message : String
  location : Location
  deriving DecidableEq, Repr

/-- Model of `DebugError::new`: `Self { message, location }`. -/
def DebugError.new (message : String) : Location → DebugError :=
  fun location => { message, location }

/-- Model of `impl std::fmt::Display for DebugError`:
`write!(f, "{} at {}", self.message, self.location)`. -/
def DebugError.render (e : DebugError) : String :=
  e.message ++ " at " ++ e.location.render

/-- The `Display::fmt` call takes `&self` (a shared, non-mutating borrow):
modelled state-passing style, it returns the rendered text together with
the value it was called on. -/
def DebugError.renderStep (e : DebugError) : String × DebugError :=
  (e.render, e)

/-- Model of the `#[derive(Clone)]` implementation on `DebugError`:
a field-wise copy of `message` and `location`. -/
def DebugError.clone (e : DebugError) : DebugError :=
  { message := e.message, location := e.location }

/-- Log severities of the `log` crate. -/
inductive Level where
  | error | warn | info | debug | trace
  deriving DecidableEq, Repr

/-- One log record: a severity and the formatted text handed to the sink. -/
structure LogRecord where
  level : Level
  text : String
  deriving DecidableEq, Repr

/-- State of the ambient `log` crate facade. `configured` says whether a
logger (sink) has been installed; `calls` is the stream of emission calls
the program has made (one entry per `log::error!` invocation, whether or
not a sink is installed); `records` is what a configured sink actually
received (with no sink installed the facade dispatches to a no-op logger
and the record is discarded, never an error). -/
structure LogState where
  configured : Bool
  calls : List LogRecord
  records : List LogRecord
  deriving DecidableEq, Repr

/-- Model of one `log::error!`-style emission: the call is always recorded
in `calls`; the record reaches `records` only when a sink is configured.
It is total — an unconfigured sink makes delivery a no-op, not a failure. -/
def LogState.emit (lvl : Level) (text : String) (st : LogState) : LogState :=
  { st with
    calls := st.calls ++ [⟨lvl, text⟩]
    records := if st.configured then st.records ++ [⟨lvl, text⟩] else st.records }

/-- Model of the `debug_error_with_log!` macro body: `message` is the
already-formatted `format!($($arg)*)` result and `caller` the
`std::panic::Location::caller()` of the expansion site. It builds the
`DebugError`, then emits
`log::error!("Error: {} at {}:{}:{}", err.message, err.location.file(),
err.location.line(), err.location.column())`, then returns the value. -/
def debugErrorWithLog (message : String) (caller : Location) (st : LogState) :
    DebugError × LogState :=
  let err := DebugError.new message caller
  let st := st.emit .error
    ("Error: " ++ err.message ++ " at " ++ err.location.file ++ ":" ++
      toString err.location.line ++ ":" ++ toString err.location.column)
  (err, st)

/-- Model of the `debug_error!` macro body: same construction, no log
emission. -/
def debugError (message : String) (caller : Location) : DebugError :=
  DebugError.new message caller

/-- String concatenation is associative (via the underlying data lists). -/
theorem strAppendAssoc (a b c : String) : a ++ b ++ c = a ++ (b ++ c) := by
  apply String.ext
  simp [String.data_append, List.append_assoc]

/-- C1: rendering a constructed `DebugError` yields exactly the message,
then `" at "`, then `file`, `":"`, `line`, `":"`, `column`, with no other
text and in that order. -/
theorem render_of_new (m : String) (loc : Location) :
    (DebugError.new m loc).render =
      m ++ " at " ++ loc.file ++ ":" ++ toString loc.line ++ ":" ++
        toString loc.column := by
  simp [DebugError.new, DebugError.render, Location.render, strAppendAssoc]

/-- C2: for every message, call site and log-facade state, the logging
constructor returns a `DebugError` whose message and location fields are
identical to the one the silent constructor produces — the whole value is
equal, so the two entry points differ only in log emission. -/
theorem withLog_value_eq_silent (m : String) (loc : Location) (st : LogState) :
    (debugErrorWithLog m loc st).1.message = (debugError m loc).message ∧
    (debugErrorWithLog m loc st).1.location = (debugError m loc).location ∧
    (debugErrorWithLog m loc st).1 = debugError m loc :=
  ⟨rfl, rfl, rfl⟩

/-- C3: every invocation of the logging constructor emits exactly one log
record, at error severity, already present in the state handed back with
the value, and its text contains the message and the file, line and column
of the captured location as individually interpolated fields. -/
theorem withLog_emits_one_error_record (m : String) (loc : Location)
    (st : LogState) :
    ∃ txt : String,
      (debugErrorWithLog m loc st).2.calls = st.calls ++ [⟨Level.error, txt⟩] ∧
      (∃ a b, txt = a ++ m ++ b) ∧
      (∃ a b, txt = a ++ loc.file ++ b) ∧
      (∃ a b, txt = a ++ toString loc.line ++ b) ∧
      (∃ a b, txt = a ++ toString loc.column ++ b) := by
  refine ⟨"Error: " ++ m ++ " at " ++ loc.file ++ ":" ++ toString loc.line ++
      ":" ++ toString loc.column, ?_, ?_, ?_, ?_, ?_⟩
  · rfl
  · exact ⟨"Error: ", " at " ++ loc.file ++ ":" ++ toString loc.line ++ ":" ++
      toString loc.column, by simp [strAppendAssoc]⟩
  · exact ⟨"Error: " ++ m ++ " at ", ":" ++ toString loc.line ++ ":" ++
      toString loc.column, by simp [strAppendAssoc]⟩
  · exact ⟨"Error: " ++ m ++ " at " ++ loc.file ++ ":", ":" ++
      toString loc.column, by simp [strAppendAssoc]⟩
  · exact ⟨"Error: " ++ m ++ " at " ++ loc.file ++ ":" ++ toString loc.line ++
      ":", "", by simp [strAppendAssoc]⟩

/-- C4: both constructors are total Lean functions, and with no log sink
configured the logging constructor still returns exactly the value the
silent constructor produces; the unavailable sink receives nothing and
no failure is surfaced. -/
theorem constructors_infallible_unconfigured (m : String) (loc : Location)
    (st : LogState) (h : st.configured = false) :
    (debugErrorWithLog m loc st).1 = debugError m loc ∧
    (debugErrorWithLog m loc st).2.records = st.records := by
  refine ⟨rfl, ?_⟩
  simp [debugErrorWithLog, LogState.emit, h]

/-- C4 witness: the logging constructor at a concrete input with an
unconfigured sink returns the silent constructor's value and delivers no
record. -/
theorem constructors_infallible_unconfigured_witness :
    (debugErrorWithLog "Database connection timeout" ⟨"db.rs", 42, 9⟩
        ⟨false, [], []⟩).1 =
      debugError "Database connection timeout" ⟨"db.rs", 42, 9⟩ ∧
    (debugErrorWithLog "Database connection timeout" ⟨"db.rs", 42, 9⟩
        ⟨false, [], []⟩).2.records =
      (⟨false, [], []⟩ : LogState).records :=
  constructors_infallible_unconfigured "Database connection timeout"
    ⟨"db.rs", 42, 9⟩ ⟨false, [], []⟩ rfl

/-- C5: the stored location is exactly the captured call site: two
constructions with identical message text at different call sites yield
values with different location fields (and equal messages). -/
theorem location_reflects_call_site (m : String) (l₁ l₂ : Location)
    (h : l₁ ≠ l₂) :
    (debugError m l₁).location ≠ (debugError m l₂).location ∧
    (debugError m l₁).message = (debugError m l₂).message :=
  ⟨h, rfl⟩

/-- C5 witness: the same message constructed at two concrete distinct call
sites carries two distinct locations. -/
theorem location_reflects_call_site_witness :
    (debugError "User not found" ⟨"db.rs", 21, 13⟩).location ≠
      (debugError "User not found" ⟨"db.rs", 27, 13⟩).location ∧
    (debugError "User not found" ⟨"db.rs", 21, 13⟩).message =
      (debugError "User not found" ⟨"db.rs", 27, 13⟩).message :=
  location_reflects_call_site "User not found" ⟨"db.rs", 21, 13⟩
    ⟨"db.rs", 27, 13⟩ (by decide)

/-- C6: `DebugError::new` is a total function that stores both arguments
verbatim: the constructed value's message field is the message argument and
its location field is the location argument. -/
theorem new_stores_verbatim (m : String) (loc : Location) :
    (DebugError.new m loc).message = m ∧ (DebugError.new m loc).location = loc :=
  ⟨rfl, rfl⟩

/-- C7: a `DebugError` is immutable after construction: the value is
nothing but its two fields, and the only operation taking an existing
value by reference (`Display::fmt`, modelled by `renderStep`) hands the
value back with both fields unchanged, so any two reads agree. -/
theorem errorValue_immutable (e : DebugError) :
    e = ⟨e.message, e.location⟩ ∧
    (e.renderStep).2.message = e.message ∧
    (e.renderStep).2.location = e.location ∧
    (e.renderStep).2 = e :=
  ⟨rfl, rfl, rfl, rfl⟩

/-- C8: rendering is deterministic and side-effect-free: calling
`renderStep` a second time on the value returned by the first call yields
identical text, and the value after both calls is the original. -/
theorem render_deterministic (e : DebugError) :
    ((e.renderStep).2.renderStep).1 = (e.renderStep).1 ∧
    ((e.renderStep).2.renderStep).2 = e :=
  ⟨rfl, rfl⟩

/-- C9: the text of the record the logging constructor emits is exactly the
literal `"Error: "` followed by the rendered form of the returned value, so
log text and `render()` differ by that fixed prefix alone. -/
theorem logged_text_eq_prefixed_render (m : String) (loc : Location)
    (st : LogState) :
    (debugErrorWithLog m loc st).2.calls =
      st.calls ++ [⟨Level.error, "Error: " ++ (debugErrorWithLog m loc st).1.render⟩] := by
  simp [debugErrorWithLog, LogState.emit, DebugError.new, DebugError.render,
    Location.render, strAppendAssoc]

/-- C10: `DebugError` is duplicable: the derived clone produces a value
whose message and location equal the original's, and the original is left
unchanged (the clone is a distinct, fully equal copy). -/
theorem clone_duplicates (e : DebugError) :
    (e.clone).message = e.message ∧
    (e.clone).location = e.location ∧
    e.clone = e :=
  ⟨rfl, rfl, rfl⟩

end DebugErrorLib
